import Mathlib

/-!
Verification of the ping-latency-dashboard prober (`src/pinger/app.py`)
against its natural-language specification.

The embedding models the probe scheduling and execution engine:

* the Prometheus registry (`LATENCY`, `THRESH`, `UP` gauges and the
  `ERRORS` counter, each keyed by the label triple (name, scheme, target))
  becomes the `Metrics` record of four maps;
* the network and the monotonic clock (`time.perf_counter`) become a
  `NetEnv` record of oracles: whether an HTTP GET / TCP connect for given
  arguments succeeds, and the pair of clock readings taken around it;
* `run_probe` becomes a function returning the propagated exception (if
  any, as `Except String Unit`), the updated registry, and the trace of
  network operations attempted (so "no network I/O" is a provable
  statement);
* the scheduler loop body becomes `schedulerTick`, with
  `asyncio.gather(..., return_exceptions=True)` embedded as `runBatch`,
  a fold that applies every probe's registry effect and discards the
  per-probe exception values;
* floats are modelled as rationals: none of the verified properties
  depends on rounding.
-/

namespace Pinger

/-- Metric key: the label triple (name, scheme, target) used by all four
metric families in `app.py`. -/
abbrev Key := String × String × String

/-- The Prometheus registry state: three gauges (absent until first set)
and one counter (0 until first increment), each keyed by `Key`. -/
structure Metrics where
  latency : Key → Option ℚ
  thresh : Key → Option ℚ
  up : Key → Option ℚ
  errors : Key → ℕ

/-- Fresh registry: no gauge samples, all counters zero. -/
def Metrics.init : Metrics :=
  ⟨fun _ => none, fun _ => none, fun _ => none, fun _ => 0⟩

/-- `LATENCY.labels(k).set(v)` -/
def Metrics.setLatency (m : Metrics) (k : Key) (v : ℚ) : Metrics :=
  { m with latency := fun k2 => if k2 = k then some v else m.latency k2 }

/-- `THRESH.labels(k).set(v)` -/
def Metrics.setThresh (m : Metrics) (k : Key) (v : ℚ) : Metrics :=
  { m with thresh := fun k2 => if k2 = k then some v else m.thresh k2 }

/-- `UP.labels(k).set(v)` -/
def Metrics.setUp (m : Metrics) (k : Key) (v : ℚ) : Metrics :=
  { m with up := fun k2 => if k2 = k then some v else m.up k2 }

/-- `ERRORS.labels(k).inc()` -/
def Metrics.incErrors (m : Metrics) (k : Key) : Metrics :=
  { m with errors := fun k2 => if k2 = k then m.errors k2 + 1 else m.errors k2 }

/-- One config target entry: `url` is required (`t["url"]`), `name` and
`threshold_seconds` are read with `t.get` and may be absent. -/
structure Target where
  url : String
  name : Option String
  threshold_seconds : Option ℚ
deriving DecidableEq

/-- A network operation attempted by a probe, recorded so that claims of
the form "raised before any network I/O" are statements about a trace. -/
inductive NetOp where
  | httpGet (url : String) (timeout : ℚ)
  | tcpConnect (host : String) (port : ℤ) (timeout : ℚ)
deriving DecidableEq

/-- The environment a tick runs in: for each possible HTTP GET or TCP
connect, whether it succeeds (`httpGet` / `tcpConnect`, covering
connection errors, bad statuses and timeouts alike, as in the code's
bare `except Exception`), and the two `time.perf_counter` readings taken
immediately before and after it (`httpTimes` / `tcpTimes`). -/
structure NetEnv where
  httpGet : String → ℚ → Except Unit Unit
  httpTimes : String → ℚ → ℚ × ℚ
  tcpConnect : String → ℤ → ℚ → Except Unit Unit
  tcpTimes : String → ℤ → ℚ → ℚ × ℚ

/-- `time.perf_counter` is monotonic, so the second reading of each pair
is never below the first. -/
def NetEnv.ClockMono (env : NetEnv) : Prop :=
  (∀ u t, (env.httpTimes u t).1 ≤ (env.httpTimes u t).2) ∧
  (∀ h p t, (env.tcpTimes h p t).1 ≤ (env.tcpTimes h p t).2)

/-- Python `str.strip()`: drop whitespace from both ends. -/
def pyStrip (s : String) : String :=
  String.mk (((s.toList.dropWhile Char.isWhitespace).reverse.dropWhile
    Char.isWhitespace).reverse)

/-- Python `s.startswith(p)`: prefix test. -/
def startswith (s p : String) : Bool :=
  p.toList.isPrefixOf s.toList

/-- Python `s.split(":", 1)` on a string known to contain a colon:
the part before the first `:` and the part after it. -/
def splitColon : List Char → List Char × List Char
  | [] => ([], [])
  | c :: rest =>
    if c = ':' then ([], rest)
    else
      let p := splitColon rest
      (c :: p.1, p.2)

/-- Digit-run parser for Python `int(str)`: after the first digit,
digits may be separated by single underscores; the flag records whether
the previous character was an underscore (which must be followed by a
digit). -/
def pyDigitsAux : ℕ → Bool → List Char → Option ℕ
  | acc, afterU, [] => if afterU then none else some acc
  | acc, afterU, c :: rest =>
    if c.isDigit then pyDigitsAux (10 * acc + (c.toNat - 48)) false rest
    else if c = '_' then
      if afterU then none else pyDigitsAux acc true rest
    else none

/-- Python `int(str)`: strips surrounding whitespace, accepts an optional
sign and a nonempty digit run (with single underscores between digits);
anything else raises ValueError, modelled as `none`. -/
def pyInt (s : String) : Option ℤ :=
  match (pyStrip s).toList with
  | [] => none
  | '+' :: rest =>
    match rest with
    | d :: rest2 =>
      if d.isDigit then (pyDigitsAux (d.toNat - 48) false rest2).map Int.ofNat
      else none
    | [] => none
  | '-' :: rest =>
    match rest with
    | d :: rest2 =>
      if d.isDigit then
        (pyDigitsAux (d.toNat - 48) false rest2).map (fun n => -(n : ℤ))
      else none
    | [] => none
  | d :: rest =>
    if d.isDigit then (pyDigitsAux (d.toNat - 48) false rest).map Int.ofNat
    else none

/-- `probe_http`: reads the clock, performs the GET (any exception —
non-2xx status, connection error, timeout — is a failure), reads the
clock again and returns the elapsed time. -/
def probe_http (env : NetEnv) (url : String) (timeout : ℚ) : Except Unit ℚ :=
  let t := env.httpTimes url timeout
  match env.httpGet url timeout with
  | .ok _ => .ok (t.2 - t.1)
  | .error e => .error e

/-- `probe_tcp`: reads the clock, opens (then closes) a TCP connection
with `timeout`, reads the clock again and returns the elapsed time. -/
def probe_tcp (env : NetEnv) (host : String) (port : ℤ) (timeout : ℚ) :
    Except Unit ℚ :=
  let t := env.tcpTimes host port timeout
  match env.tcpConnect host port timeout with
  | .ok _ => .ok (t.2 - t.1)
  | .error e => .error e

/-- `run_probe(t, timeout)`: classifies the (stripped) URL, dispatches
to the matching probe and records the outcome in the registry. Returns
the exception propagated out of the coroutine (`Except.error` for the
two `raise ValueError` paths, which occur before any metric write),
the updated registry, and the trace of network operations attempted. -/
def run_probe (env : NetEnv) (t : Target) (timeout : ℚ) (m : Metrics) :
    Except String Unit × Metrics × List NetOp :=
  let url := pyStrip t.url
  let name := t.name.getD url
  let threshold := t.threshold_seconds.getD 1
  if startswith url "http://" || startswith url "https://" then
    let scheme := "http"
    let target_label := url
    match probe_http env url timeout with
    | .ok latency =>
      (.ok (),
        ((m.setLatency (name, scheme, target_label) latency).setThresh
          (name, scheme, target_label) threshold).setUp
          (name, scheme, target_label) 1,
        [.httpGet url timeout])
    | .error _ =>
      (.ok (),
        (m.incErrors (name, scheme, target_label)).setUp
          (name, scheme, target_label) 0,
        [.httpGet url timeout])
  else if startswith url "tcp://" then
    let host_port := url.toList.drop 6
    if !host_port.contains ':' then
      (.error "tcp:// requires host:port", m, [])
    else
      let hp := splitColon host_port
      let host := String.mk hp.1
      match pyInt (String.mk hp.2) with
      | none => (.error "invalid literal for int() with base 10", m, [])
      | some port =>
        let scheme := "tcp"
        let target_label := host ++ ":" ++ toString port
        match probe_tcp env host port timeout with
        | .ok latency =>
          (.ok (),
            ((m.setLatency (name, scheme, target_label) latency).setThresh
              (name, scheme, target_label) threshold).setUp
              (name, scheme, target_label) 1,
            [.tcpConnect host port timeout])
        | .error _ =>
          (.ok (),
            (m.incErrors (name, scheme, target_label)).setUp
              (name, scheme, target_label) 0,
            [.tcpConnect host port timeout])
  else
    (.error "Unsupported URL scheme. Use http(s):// or tcp://", m, [])

/-- The mutable `state` dict: current targets, probe interval (seconds)
and per-probe timeout (seconds). -/
structure SchedState where
  targets : List Target
  interval : ℚ
  timeout : ℚ
deriving DecidableEq

/-- The parsed YAML document as `load_config` reads it: the `targets`
list (`cfg.get("targets", [])`, absent modelled as `[]`), and the two
optional numeric fields, where `some (.error ())` models a present value
on which `float()` raises. -/
structure ConfigDoc where
  targets : List Target
  interval_seconds : Option (Except Unit ℚ)
  request_timeout_seconds : Option (Except Unit ℚ)

/-- The config source as seen through `open` + `yaml.safe_load`:
`err` when opening or parsing raises (unreadable file, malformed YAML),
otherwise the parsed document — `parsed none` is an empty/null document
(`safe_load` returned `None`). -/
inductive ConfigSrc where
  | err
  | parsed (d : Option ConfigDoc)

/-- `float(cfg.get(field, default))`: absent field falls back to the
default (already a float); a present field is converted by `float()`,
which may raise. -/
def floatField (v : Option (Except Unit ℚ)) (dflt : ℚ) : Except Unit ℚ :=
  match v with
  | none => .ok dflt
  | some r => r

/-- `load_config(path)`: returns the `(targets, interval, timeout)`
triple, or an error if opening/parsing the file or a `float()`
conversion raises. Defaults for the two numeric fields come from the
current `state`, mirroring `cfg.get("interval_seconds", state["interval"])`. -/
def load_config (src : ConfigSrc) (st : SchedState) :
    Except Unit (List Target × ℚ × ℚ) :=
  match src with
  | .err => .error ()
  | .parsed d0 =>
    let cfg := d0.getD ⟨[], none, none⟩
    match floatField cfg.interval_seconds st.interval with
    | .error e => .error e
    | .ok interval =>
      match floatField cfg.request_timeout_seconds st.timeout with
      | .error e => .error e
      | .ok timeout => .ok (cfg.targets, interval, timeout)

/-- `asyncio.gather(*[run_probe(t, timeout) for t in targets],
return_exceptions=True)`: every probe runs to completion and applies its
registry effects; a probe's propagated exception is collected as a value
and never aborts the batch or discards sibling results. -/
def runBatch (env : NetEnv) (targets : List Target) (timeout : ℚ)
    (m : Metrics) : Metrics × List NetOp :=
  match targets with
  | [] => (m, [])
  | t :: rest =>
    let r := run_probe env t timeout m
    let b := runBatch env rest timeout r.2.1
    (b.1, r.2.2 ++ b.2)

/-- One iteration of the `scheduler` loop body: attempt a reload (on
success the `state` dict is replaced with the loaded triple, on any
exception the previous values are kept), skip probing when the effective
target list is empty, otherwise gather the whole batch. Returns the new
scheduler state, the new registry, the trace of network operations, and
the duration passed to `asyncio.sleep`. -/
def schedulerTick (src : ConfigSrc) (env : NetEnv) (st : SchedState)
    (m : Metrics) : SchedState × Metrics × List NetOp × ℚ :=
  match load_config src st with
  | .ok (targets, interval, timeout) =>
    if targets.isEmpty then (⟨targets, interval, timeout⟩, m, [], interval)
    else
      let b := runBatch env targets timeout m
      (⟨targets, interval, timeout⟩, b.1, b.2, interval)
  | .error _ =>
    if st.targets.isEmpty then (st, m, [], st.interval)
    else
      let b := runBatch env st.targets st.timeout m
      (st, b.1, b.2, st.interval)

/-- The snapshot in effect during a tick: the loaded triple when the
reload succeeded, the previous state otherwise. -/
def effectiveSnapshot (src : ConfigSrc) (st : SchedState) : SchedState :=
  match load_config src st with
  | .ok (targets, interval, timeout) => ⟨targets, interval, timeout⟩
  | .error _ => st

/-- The scheduler loop run for `n` ticks, each tick reading the config
source and network environment of that tick; total by construction, as
every reload or probe error is absorbed inside `schedulerTick`. -/
def schedulerSteps (srcs : ℕ → ConfigSrc) (envs : ℕ → NetEnv)
    (st : SchedState) (m : Metrics) : ℕ → SchedState × Metrics
  | 0 => (st, m)
  | n + 1 =>
    let p := schedulerSteps srcs envs st m n
    let r := schedulerTick (srcs n) (envs n) p.1 p.2
    (r.1, r.2.1)

/-! ### Classification views of `run_probe`

`classify` restates the branch structure at the top of `run_probe`
(the scheme checks, the colon check and the port parse, in the source's
order) as a three-way dispatch value, and `dispatchRun` performs the
per-branch work; `run_probe_eq` proves `run_probe` equal to their
composition, so claims can quantify over "the failure outcomes", "the
metric key of a target", etc. -/

/-- Where `run_probe` dispatches a target: the HTTP branch, the TCP
branch (with the parsed host and port), or one of the two
`raise ValueError` paths. -/
inductive Dispatch where
  | http (name url : String) (threshold : ℚ)
  | tcp (name host : String) (port : ℤ) (threshold : ℚ)
  | raise (msg : String)
deriving DecidableEq

/-- The classification chain of `run_probe`: strip the URL, check the
`http(s)` prefixes first, then `tcp://` with the colon check and the
`int(port)` parse, else the unsupported-scheme error. -/
def classify (t : Target) : Dispatch :=
  let url := pyStrip t.url
  let name := t.name.getD url
  let threshold := t.threshold_seconds.getD 1
  if startswith url "http://" || startswith url "https://" then
    .http name url threshold
  else if startswith url "tcp://" then
    let host_port := url.toList.drop 6
    if !host_port.contains ':' then
      .raise "tcp:// requires host:port"
    else
      let hp := splitColon host_port
      match pyInt (String.mk hp.2) with
      | none => .raise "invalid literal for int() with base 10"
      | some port => .tcp name (String.mk hp.1) port threshold
  else .raise "Unsupported URL scheme. Use http(s):// or tcp://"

/-- The per-branch body of `run_probe`, given a classified dispatch. -/
def dispatchRun (env : NetEnv) (d : Dispatch) (timeout : ℚ) (m : Metrics) :
    Except String Unit × Metrics × List NetOp :=
  match d with
  | .http name url threshold =>
    match probe_http env url timeout with
    | .ok latency =>
      (.ok (),
        ((m.setLatency (name, "http", url) latency).setThresh
          (name, "http", url) threshold).setUp (name, "http", url) 1,
        [.httpGet url timeout])
    | .error _ =>
      (.ok (),
        (m.incErrors (name, "http", url)).setUp (name, "http", url) 0,
        [.httpGet url timeout])
  | .tcp name host port threshold =>
    let target_label := host ++ ":" ++ toString port
    match probe_tcp env host port timeout with
    | .ok latency =>
      (.ok (),
        ((m.setLatency (name, "tcp", target_label) latency).setThresh
          (name, "tcp", target_label) threshold).setUp
          (name, "tcp", target_label) 1,
        [.tcpConnect host port timeout])
    | .error _ =>
      (.ok (),
        (m.incErrors (name, "tcp", target_label)).setUp
          (name, "tcp", target_label) 0,
        [.tcpConnect host port timeout])
  | .raise msg => (.error msg, m, [])

/-- The metric key `(name, scheme, target_label)` a target is recorded
under, `none` when `run_probe` raises before choosing a label. -/
def Dispatch.key : Dispatch → Option Key
  | .http name url _ => some (name, "http", url)
  | .tcp name host port _ => some (name, "tcp", host ++ ":" ++ toString port)
  | .raise _ => none

/-- The metric key of a target. -/
def targetKey (t : Target) : Option Key :=
  (classify t).key

/-- True when `run_probe` raises a ValueError out of the coroutine:
a `tcp://` URL with no colon or a non-numeric port, or an unsupported
scheme. Depends only on the target, not on the network. -/
def probeRaises (t : Target) : Bool :=
  match classify t with
  | .raise _ => true
  | _ => false

/-- True when the dispatched probe attempt fails (HTTP GET or TCP
connect raises): the caught-exception path of `run_probe`. -/
def probeFails (env : NetEnv) (t : Target) (timeout : ℚ) : Bool :=
  match classify t with
  | .http _ url _ =>
    match env.httpGet url timeout with
    | .ok _ => false
    | .error _ => true
  | .tcp _ host port _ =>
    match env.tcpConnect host port timeout with
    | .ok _ => false
    | .error _ => true
  | .raise _ => false

/-- True when the dispatched probe attempt succeeds: the success path of
`run_probe`. -/
def probeSucceeds (env : NetEnv) (t : Target) (timeout : ℚ) : Bool :=
  match classify t with
  | .http _ url _ =>
    match env.httpGet url timeout with
    | .ok _ => true
    | .error _ => false
  | .tcp _ host port _ =>
    match env.tcpConnect host port timeout with
    | .ok _ => true
    | .error _ => false
  | .raise _ => false

/-- The latency a successful probe measures: the difference of the two
`perf_counter` readings around the dispatched network operation. -/
def probeLatency (env : NetEnv) (t : Target) (timeout : ℚ) : ℚ :=
  match classify t with
  | .http _ url _ =>
    (env.httpTimes url timeout).2 - (env.httpTimes url timeout).1
  | .tcp _ host port _ =>
    (env.tcpTimes host port timeout).2 - (env.tcpTimes host port timeout).1
  | .raise _ => 0

/-! ### Concrete environments used by witnesses -/

/-- An environment in which every network operation fails (connection
refused everywhere); the clock never advances. -/
def env0 : NetEnv :=
  ⟨fun _ _ => .error (), fun _ _ => (0, 0),
   fun _ _ _ => .error (), fun _ _ _ => (0, 0)⟩

/-- An environment in which every network operation succeeds; HTTP
operations take 3 clock units, TCP operations 4. -/
def envUp : NetEnv :=
  ⟨fun _ _ => .ok (), fun _ _ => (2, 5),
   fun _ _ _ => .ok (), fun _ _ _ => (3, 7)⟩

/-! ### Registry setter lemmas -/

/-- `run_probe` is the composition of classification and per-branch
execution. -/
theorem run_probe_eq (env : NetEnv) (t : Target) (timeout : ℚ)
    (m : Metrics) :
    run_probe env t timeout m = dispatchRun env (classify t) timeout m := by
  simp only [run_probe, classify]
  split_ifs with h1 h2 h3
  · rfl
  · rfl
  · split <;> rfl
  · rfl

theorem Metrics.setLatency_up (m : Metrics) (k : Key) (v : ℚ) :
    (m.setLatency k v).up = m.up := rfl

theorem Metrics.setLatency_thresh (m : Metrics) (k : Key) (v : ℚ) :
    (m.setLatency k v).thresh = m.thresh := rfl

theorem Metrics.setLatency_errors (m : Metrics) (k : Key) (v : ℚ) :
    (m.setLatency k v).errors = m.errors := rfl

theorem Metrics.setThresh_up (m : Metrics) (k : Key) (v : ℚ) :
    (m.setThresh k v).up = m.up := rfl

theorem Metrics.setThresh_latency (m : Metrics) (k : Key) (v : ℚ) :
    (m.setThresh k v).latency = m.latency := rfl

theorem Metrics.setThresh_errors (m : Metrics) (k : Key) (v : ℚ) :
    (m.setThresh k v).errors = m.errors := rfl

theorem Metrics.setUp_latency (m : Metrics) (k : Key) (v : ℚ) :
    (m.setUp k v).latency = m.latency := rfl

theorem Metrics.setUp_thresh (m : Metrics) (k : Key) (v : ℚ) :
    (m.setUp k v).thresh = m.thresh := rfl

theorem Metrics.setUp_errors (m : Metrics) (k : Key) (v : ℚ) :
    (m.setUp k v).errors = m.errors := rfl

theorem Metrics.incErrors_latency (m : Metrics) (k : Key) :
    (m.incErrors k).latency = m.latency := rfl

theorem Metrics.incErrors_thresh (m : Metrics) (k : Key) :
    (m.incErrors k).thresh = m.thresh := rfl

theorem Metrics.incErrors_up (m : Metrics) (k : Key) :
    (m.incErrors k).up = m.up := rfl

theorem Metrics.setUp_up_self (m : Metrics) (k : Key) (v : ℚ) :
    (m.setUp k v).up k = some v := by
  simp [Metrics.setUp]

theorem Metrics.setUp_up_ne (m : Metrics) (k k2 : Key) (v : ℚ)
    (h : k2 ≠ k) : (m.setUp k v).up k2 = m.up k2 := by
  simp [Metrics.setUp, h]

theorem Metrics.setLatency_latency_self (m : Metrics) (k : Key) (v : ℚ) :
    (m.setLatency k v).latency k = some v := by
  simp [Metrics.setLatency]

theorem Metrics.setThresh_thresh_self (m : Metrics) (k : Key) (v : ℚ) :
    (m.setThresh k v).thresh k = some v := by
  simp [Metrics.setThresh]

theorem Metrics.incErrors_errors_self (m : Metrics) (k : Key) :
    (m.incErrors k).errors k = m.errors k + 1 := by
  simp [Metrics.incErrors]

theorem Metrics.incErrors_errors_ne (m : Metrics) (k k2 : Key)
    (h : k2 ≠ k) : (m.incErrors k).errors k2 = m.errors k2 := by
  simp [Metrics.incErrors, h]

/-! ### URL scheme disjointness -/

/-- A URL that starts with `tcp://` starts with neither `http://` nor
`https://`, so in `run_probe` the order of the two checks is
immaterial: the `elif` branch is exactly the `tcp://` URLs. -/
theorem startswith_tcp_not_http (s : String)
    (h : startswith s "tcp://" = true) :
    startswith s "http://" = false ∧ startswith s "https://" = false := by
  unfold startswith at h ⊢
  have ht : "tcp://".toList = ['t', 'c', 'p', ':', '/', '/'] := rfl
  have hh : "http://".toList = ['h', 't', 't', 'p', ':', '/', '/'] := rfl
  have hs2 : "https://".toList = ['h', 't', 't', 'p', 's', ':', '/', '/'] := rfl
  rw [ht] at h
  rw [hh, hs2]
  cases hs : s.toList with
  | nil => rw [hs] at h; simp [List.isPrefixOf] at h
  | cons c cs =>
    rw [hs] at h
    simp only [List.isPrefixOf, Bool.and_eq_true, beq_iff_eq] at h ⊢
    obtain ⟨hc, -⟩ := h
    subst hc
    simp

/-! ### Characterization of the three outcome shapes of `run_probe` -/

/-- When `probeRaises t` holds, `run_probe` propagates a ValueError,
performs no network I/O and leaves the registry untouched. -/
theorem run_probe_raise_eq (env : NetEnv) (t : Target) (timeout : ℚ)
    (m : Metrics) (h : probeRaises t = true) :
    (run_probe env t timeout m).2 = (m, []) ∧
    ∃ e, (run_probe env t timeout m).1 = .error e := by
  rw [run_probe_eq]
  unfold probeRaises at h
  cases hc : classify t with
  | http n u th => rw [hc] at h; simp at h
  | tcp n ho p th => rw [hc] at h; simp at h
  | raise msg => exact ⟨rfl, msg, rfl⟩

/-- Inverting an `http` classification: the pieces of the dispatch are
the stripped URL, the defaulted name and the defaulted threshold. -/
theorem classify_http_inv (t : Target) (n u : String) (th : ℚ)
    (hc : classify t = .http n u th) :
    n = t.name.getD (pyStrip t.url) ∧ u = pyStrip t.url ∧
    th = t.threshold_seconds.getD 1 := by
  simp only [classify] at hc
  split at hc
  · simp only [Dispatch.http.injEq] at hc
    exact ⟨hc.1.symm, hc.2.1.symm, hc.2.2.symm⟩
  · split at hc
    · split at hc
      · exact Dispatch.noConfusion hc
      · split at hc
        · exact Dispatch.noConfusion hc
        · exact Dispatch.noConfusion hc
    · exact Dispatch.noConfusion hc

/-- Inverting a `tcp` classification: the name, host, parsed port and
threshold come from the stripped URL as the source computes them. -/
theorem classify_tcp_inv (t : Target) (n ho : String) (p : ℤ) (th : ℚ)
    (hc : classify t = .tcp n ho p th) :
    n = t.name.getD (pyStrip t.url) ∧
    ho = String.mk (splitColon ((pyStrip t.url).toList.drop 6)).1 ∧
    pyInt (String.mk (splitColon ((pyStrip t.url).toList.drop 6)).2) =
      some p ∧
    th = t.threshold_seconds.getD 1 := by
  simp only [classify] at hc
  split at hc
  · exact Dispatch.noConfusion hc
  · split at hc
    · split at hc
      · exact Dispatch.noConfusion hc
      · split at hc
        · exact Dispatch.noConfusion hc
        · rename_i port hport
          simp only [Dispatch.tcp.injEq] at hc
          refine ⟨hc.1.symm, hc.2.1.symm, ?_, hc.2.2.2.symm⟩
          rw [hport, hc.2.2.1]
    · exact Dispatch.noConfusion hc

/-- When `probeFails` holds, `run_probe` records the failure: the error
counter of the target's key is bumped, its up gauge set to 0, and no
exception propagates. -/
theorem run_probe_fail_eq (env : NetEnv) (t : Target) (timeout : ℚ)
    (m : Metrics) (k : Key) (hk : targetKey t = some k)
    (hf : probeFails env t timeout = true) :
    (run_probe env t timeout m).2.1 = (m.incErrors k).setUp k 0 ∧
    (run_probe env t timeout m).1 = .ok () := by
  rw [run_probe_eq]
  cases hc : classify t with
  | http n u th =>
    simp only [probeFails, hc] at hf
    simp only [targetKey, Dispatch.key, hc, Option.some.injEq] at hk
    cases hg : env.httpGet u timeout with
    | ok v => rw [hg] at hf; simp at hf
    | error e =>
      subst hk
      simp [dispatchRun, probe_http, hg]
  | tcp n ho p th =>
    simp only [probeFails, hc] at hf
    simp only [targetKey, Dispatch.key, hc, Option.some.injEq] at hk
    cases hg : env.tcpConnect ho p timeout with
    | ok v => rw [hg] at hf; simp at hf
    | error e =>
      subst hk
      simp [dispatchRun, probe_tcp, hg]
  | raise msg => simp [probeFails, hc] at hf

/-- When `probeSucceeds` holds, `run_probe` records the success: the
latency gauge of the target's key is set to the measured latency, the
threshold gauge to the target's configured threshold (default 1), and
the up gauge to 1; no exception propagates. -/
theorem run_probe_success_eq (env : NetEnv) (t : Target) (timeout : ℚ)
    (m : Metrics) (k : Key) (hk : targetKey t = some k)
    (hs : probeSucceeds env t timeout = true) :
    (run_probe env t timeout m).2.1 =
      ((m.setLatency k (probeLatency env t timeout)).setThresh k
        (t.threshold_seconds.getD 1)).setUp k 1 ∧
    (run_probe env t timeout m).1 = .ok () := by
  rw [run_probe_eq]
  cases hc : classify t with
  | http n u th =>
    simp only [probeSucceeds, hc] at hs
    simp only [targetKey, Dispatch.key, hc, Option.some.injEq] at hk
    simp only [probeLatency, hc]
    obtain ⟨-, -, hth⟩ := classify_http_inv t n u th hc
    cases hg : env.httpGet u timeout with
    | error e => rw [hg] at hs; simp at hs
    | ok v =>
      subst hk
      subst hth
      simp [dispatchRun, probe_http, hg]
  | tcp n ho p th =>
    simp only [probeSucceeds, hc] at hs
    simp only [targetKey, Dispatch.key, hc, Option.some.injEq] at hk
    simp only [probeLatency, hc]
    obtain ⟨-, -, -, hth⟩ := classify_tcp_inv t n ho p th hc
    cases hg : env.tcpConnect ho p timeout with
    | error e => rw [hg] at hs; simp at hs
    | ok v =>
      subst hk
      subst hth
      simp [dispatchRun, probe_tcp, hg]
  | raise msg => simp [probeSucceeds, hc] at hs

/-- A successful probe measures a nonnegative latency, because
`perf_counter` is monotonic. -/
theorem probeLatency_nonneg (env : NetEnv) (t : Target) (timeout : ℚ)
    (hmono : env.ClockMono) : 0 ≤ probeLatency env t timeout := by
  unfold probeLatency
  cases hc : classify t with
  | http n u th => exact sub_nonneg.mpr (hmono.1 u timeout)
  | tcp n ho p th => exact sub_nonneg.mpr (hmono.2 ho p timeout)
  | raise msg => exact le_refl 0

/-- Splitting on a colon that is not there returns the whole string and
an empty remainder. -/
theorem splitColon_no_colon (l : List Char) (h : l.contains ':' = false) :
    splitColon l = (l, []) := by
  induction l with
  | nil => rfl
  | cons c cs ih =>
    simp only [List.contains_cons, Bool.or_eq_false_iff, beq_eq_false_iff_ne,
      ne_eq] at h
    simp only [splitColon]
    rw [if_neg (fun hc => h.1 hc.symm), ih h.2]

/-- Classification of an `http(s)` target. -/
theorem classify_of_http (t : Target)
    (h : (startswith (pyStrip t.url) "http://" ||
      startswith (pyStrip t.url) "https://") = true) :
    classify t = .http (t.name.getD (pyStrip t.url)) (pyStrip t.url)
      (t.threshold_seconds.getD 1) := by
  simp [classify, h]

/-- Classification of a well-formed `tcp://` target: a port that parses
implies the colon was present, and the dispatch carries the split host
and the parsed port. -/
theorem classify_of_tcp (t : Target) (p : ℤ)
    (h2 : startswith (pyStrip t.url) "tcp://" = true)
    (hport : pyInt (String.mk
      (splitColon ((pyStrip t.url).toList.drop 6)).2) = some p) :
    classify t = .tcp (t.name.getD (pyStrip t.url))
      (String.mk (splitColon ((pyStrip t.url).toList.drop 6)).1) p
      (t.threshold_seconds.getD 1) := by
  obtain ⟨hh1, hh2⟩ := startswith_tcp_not_http _ h2
  have hcont : ((pyStrip t.url).toList.drop 6).contains ':' = true := by
    by_contra hcc
    rw [Bool.not_eq_true] at hcc
    have he : (splitColon ((pyStrip t.url).toList.drop 6)).2 = [] := by
      rw [splitColon_no_colon _ hcc]
    rw [he] at hport
    rw [show pyInt (String.mk []) = none from rfl] at hport
    exact Option.noConfusion hport
  have hmem : ':' ∈ List.drop 6 (pyStrip t.url).data :=
    List.mem_of_elem_eq_true hcont
  have hport2 : pyInt (String.mk
      (splitColon (List.drop 6 (pyStrip t.url).data)).2) = some p := hport
  simp [classify, hh1, hh2, h2, hmem, hport2]

/-- A malformed `tcp://` target (no colon, or a port on which `int()`
raises) is one of the raise paths. -/
theorem probeRaises_of_tcp_malformed (t : Target)
    (h2 : startswith (pyStrip t.url) "tcp://" = true)
    (hbad : ((pyStrip t.url).toList.drop 6).contains ':' = false ∨
      pyInt (String.mk
        (splitColon ((pyStrip t.url).toList.drop 6)).2) = none) :
    probeRaises t = true := by
  obtain ⟨hh1, hh2⟩ := startswith_tcp_not_http _ h2
  rcases hbad with hnc | hpnone
  · have hnm : ¬ ':' ∈ List.drop 6 (pyStrip t.url).data := fun hm => by
      have hc2 : ((pyStrip t.url).toList.drop 6).contains ':' = true :=
        List.elem_eq_true_of_mem hm
      rw [hnc] at hc2
      exact Bool.noConfusion hc2
    simp [probeRaises, classify, hh1, hh2, h2, hnm]
  · by_cases hcont : ((pyStrip t.url).toList.drop 6).contains ':' = true
    · have hmem : ':' ∈ List.drop 6 (pyStrip t.url).data :=
        List.mem_of_elem_eq_true hcont
      have hpnone2 : pyInt (String.mk
          (splitColon (List.drop 6 (pyStrip t.url).data)).2) = none := hpnone
      simp [probeRaises, classify, hh1, hh2, h2, hmem, hpnone2]
    · rw [Bool.not_eq_true] at hcont
      have hnm : ¬ ':' ∈ List.drop 6 (pyStrip t.url).data := fun hm => by
        have hc2 : ((pyStrip t.url).toList.drop 6).contains ':' = true :=
          List.elem_eq_true_of_mem hm
        rw [hcont] at hc2
        exact Bool.noConfusion hc2
      simp [probeRaises, classify, hh1, hh2, h2, hnm]

/-- A target whose URL matches no supported scheme is the
unsupported-scheme raise path. -/
theorem probeRaises_of_unsupported (t : Target)
    (h1 : (startswith (pyStrip t.url) "http://" ||
      startswith (pyStrip t.url) "https://") = false)
    (h2 : startswith (pyStrip t.url) "tcp://" = false) :
    probeRaises t = true := by
  simp [probeRaises, classify, h1, h2]

/-- Dropping a raising probe from a batch leaves the batch's registry
effect and I/O trace unchanged: its exception is collected by
`gather(..., return_exceptions=True)` without touching anything. -/
theorem runBatch_raise_skip (env : NetEnv) (timeout : ℚ)
    (pre post : List Target) (t : Target) (m : Metrics)
    (h : probeRaises t = true) :
    runBatch env (pre ++ t :: post) timeout m =
      runBatch env (pre ++ post) timeout m := by
  induction pre generalizing m with
  | nil =>
    obtain ⟨h2, -⟩ := run_probe_raise_eq env t timeout m h
    have hm : (run_probe env t timeout m).2.1 = m := by rw [h2]
    have ho : (run_probe env t timeout m).2.2 = [] := by rw [h2]
    simp only [List.nil_append, runBatch, hm, ho, List.nil_append]
  | cons a pre ih =>
    simp only [List.cons_append, runBatch, List.append_eq]
    rw [ih]

/-! ### Claims C1, C4: the raise paths of `run_probe` -/

/-- Claim C1 (amended): for every target whose stripped URL begins with
`tcp://` but whose remainder is malformed (missing colon, or a port on
which `int()` raises), `run_probe` raises a ValueError before
performing any network I/O — the I/O trace is empty — and, contrary to
the original claim, records nothing: the registry is returned
untouched, so the up-state for the target is not set to 0 and no error
counter is incremented; the exception is later collected by the
scheduler's `gather(..., return_exceptions=True)`. -/
theorem malformed_tcp_raises_before_io (env : NetEnv) (t : Target)
    (timeout : ℚ) (m : Metrics)
    (h2 : startswith (pyStrip t.url) "tcp://" = true)
    (hbad : ((pyStrip t.url).toList.drop 6).contains ':' = false ∨
      pyInt (String.mk
        (splitColon ((pyStrip t.url).toList.drop 6)).2) = none) :
    (run_probe env t timeout m).2.2 = [] ∧
    (run_probe env t timeout m).2.1 = m ∧
    ∃ e, (run_probe env t timeout m).1 = .error e := by
  have hr := probeRaises_of_tcp_malformed t h2 hbad
  obtain ⟨hmo, e, he⟩ := run_probe_raise_eq env t timeout m hr
  exact ⟨congrArg Prod.snd hmo, congrArg Prod.fst hmo, e, he⟩

/-- Witness for the C1 theorem at the concrete malformed target
`tcp://nocolon` in the all-refusing environment. -/
theorem malformed_tcp_raises_before_io_wit :
    (startswith (pyStrip "tcp://nocolon") "tcp://" = true ∧
      ((pyStrip "tcp://nocolon").toList.drop 6).contains ':' = false) ∧
    (run_probe env0 ⟨"tcp://nocolon", none, none⟩ 5 Metrics.init).2.2 = [] ∧
    (run_probe env0 ⟨"tcp://nocolon", none, none⟩ 5 Metrics.init).2.1 =
      Metrics.init ∧
    ∃ e, (run_probe env0 ⟨"tcp://nocolon", none, none⟩ 5
      Metrics.init).1 = .error e :=
  ⟨⟨by decide, by decide⟩,
    malformed_tcp_raises_before_io env0 ⟨"tcp://nocolon", none, none⟩ 5
      Metrics.init (by decide) (.inl (by decide))⟩

/-- Counterexample to C1 as stated: probing the malformed target
`tcp://badhost` (no colon) leaves the registry exactly as it was — in
particular no error counter is incremented (all counters still 0) and
no up-state is set to 0 — because the ValueError is raised outside the
try/except that records failures. -/
theorem malformed_tcp_cex :
    run_probe env0 ⟨"tcp://badhost", none, none⟩ 5 Metrics.init =
      (.error "tcp:// requires host:port", Metrics.init, []) ∧
    (run_probe env0 ⟨"tcp://badhost", none, none⟩ 5 Metrics.init).2.1.errors
      ("tcp://badhost", "tcp", "badhost") = 0 ∧
    (run_probe env0 ⟨"tcp://badhost", none, none⟩ 5 Metrics.init).2.1.up
      ("tcp://badhost", "tcp", "badhost") = none :=
  ⟨rfl, rfl, rfl⟩

/-- Claim C4 (amended): for every target whose stripped URL has neither
an `http://`, `https://` nor `tcp://` prefix, `run_probe` raises a
ValueError before any network I/O — the I/O trace is empty — and,
contrary to the original claim, records nothing: the registry is
returned untouched, so the error counter is not incremented and the
up-state is not set; the exception is collected by the scheduler's
gather. -/
theorem unsupported_scheme_raises_before_io (env : NetEnv) (t : Target)
    (timeout : ℚ) (m : Metrics)
    (h1 : (startswith (pyStrip t.url) "http://" ||
      startswith (pyStrip t.url) "https://") = false)
    (h2 : startswith (pyStrip t.url) "tcp://" = false) :
    (run_probe env t timeout m).2.2 = [] ∧
    (run_probe env t timeout m).2.1 = m ∧
    ∃ e, (run_probe env t timeout m).1 = .error e := by
  have hr := probeRaises_of_unsupported t h1 h2
  obtain ⟨hmo, e, he⟩ := run_probe_raise_eq env t timeout m hr
  exact ⟨congrArg Prod.snd hmo, congrArg Prod.fst hmo, e, he⟩

/-- Witness for the C4 theorem at the concrete target `ftp://host`. -/
theorem unsupported_scheme_raises_before_io_wit :
    ((startswith (pyStrip "ftp://host") "http://" ||
      startswith (pyStrip "ftp://host") "https://") = false ∧
      startswith (pyStrip "ftp://host") "tcp://" = false) ∧
    (run_probe env0 ⟨"ftp://host", none, none⟩ 5 Metrics.init).2.2 = [] ∧
    (run_probe env0 ⟨"ftp://host", none, none⟩ 5 Metrics.init).2.1 =
      Metrics.init ∧
    ∃ e, (run_probe env0 ⟨"ftp://host", none, none⟩ 5
      Metrics.init).1 = .error e :=
  ⟨⟨by decide, by decide⟩,
    unsupported_scheme_raises_before_io env0 ⟨"ftp://host", none, none⟩ 5
      Metrics.init (by decide) (by decide)⟩

/-- Counterexample to C4 as stated: probing `gopher://files` leaves the
registry exactly as it was — the error counter is not incremented and
the up-state is not set to 0 — because the unsupported-scheme
ValueError is raised outside the try/except that records failures. -/
theorem unsupported_scheme_cex :
    run_probe env0 ⟨"gopher://files", none, none⟩ 5 Metrics.init =
      (.error "Unsupported URL scheme. Use http(s):// or tcp://",
        Metrics.init, []) ∧
    (run_probe env0 ⟨"gopher://files", none, none⟩ 5
      Metrics.init).2.1.errors ("gopher://files", "http", "gopher://files")
      = 0 ∧
    (run_probe env0 ⟨"gopher://files", none, none⟩ 5 Metrics.init).2.1.up
      ("gopher://files", "http", "gopher://files") = none :=
  ⟨rfl, rfl, rfl⟩

/-! ### Claims C2, C9, C5: what a recorded outcome changes -/

/-- Claim C2 (confirmed): a probe failure never touches the latency
gauge — the whole latency map is unchanged, so the last successful
latency (or absence) stays visible — while the target's up-state is set
to 0, its error counter is incremented by exactly 1, and the up-states
and error counters of every other key are unchanged. -/
theorem failure_preserves_latency (env : NetEnv) (t : Target)
    (timeout : ℚ) (m : Metrics) (k : Key) (hk : targetKey t = some k)
    (hf : probeFails env t timeout = true) :
    (run_probe env t timeout m).2.1.latency = m.latency ∧
    (run_probe env t timeout m).2.1.up k = some 0 ∧
    (run_probe env t timeout m).2.1.errors k = m.errors k + 1 ∧
    ∀ k2, k2 ≠ k → (run_probe env t timeout m).2.1.up k2 = m.up k2 ∧
      (run_probe env t timeout m).2.1.errors k2 = m.errors k2 := by
  obtain ⟨hm, -⟩ := run_probe_fail_eq env t timeout m k hk hf
  rw [hm]
  refine ⟨?_, ?_, ?_, fun k2 hne => ⟨?_, ?_⟩⟩
  · rw [Metrics.setUp_latency, Metrics.incErrors_latency]
  · rw [Metrics.setUp_up_self]
  · rw [Metrics.setUp_errors, Metrics.incErrors_errors_self]
  · rw [Metrics.setUp_up_ne _ _ _ _ hne, Metrics.incErrors_up]
  · rw [Metrics.setUp_errors, Metrics.incErrors_errors_ne _ _ _ hne]

/-- Witness for the C2 theorem: a refused HTTP probe of `http://svc`
bumps only its error counter and up-state; the latency map is the
initial one. -/
theorem failure_preserves_latency_wit :
    targetKey ⟨"http://svc", none, none⟩ =
      some ("http://svc", "http", "http://svc") ∧
    probeFails env0 ⟨"http://svc", none, none⟩ 5 = true ∧
    (run_probe env0 ⟨"http://svc", none, none⟩ 5 Metrics.init).2.1.latency =
      Metrics.init.latency ∧
    (run_probe env0 ⟨"http://svc", none, none⟩ 5 Metrics.init).2.1.up
      ("http://svc", "http", "http://svc") = some 0 ∧
    (run_probe env0 ⟨"http://svc", none, none⟩ 5 Metrics.init).2.1.errors
      ("http://svc", "http", "http://svc") =
      Metrics.init.errors ("http://svc", "http", "http://svc") + 1 :=
  ⟨by decide, by decide,
    (failure_preserves_latency env0 ⟨"http://svc", none, none⟩ 5
      Metrics.init ("http://svc", "http", "http://svc")
      (by decide) (by decide)).1,
    (failure_preserves_latency env0 ⟨"http://svc", none, none⟩ 5
      Metrics.init ("http://svc", "http", "http://svc")
      (by decide) (by decide)).2.1,
    (failure_preserves_latency env0 ⟨"http://svc", none, none⟩ 5
      Metrics.init ("http://svc", "http", "http://svc")
      (by decide) (by decide)).2.2.1⟩

/-- Claim C9 (confirmed): a probe failure also leaves the whole
threshold-gauge map unchanged — the threshold is only ever written on
success, so after a failure the exposed threshold is the one recorded
at the last success, or absent if the key never succeeded. -/
theorem failure_preserves_threshold (env : NetEnv) (t : Target)
    (timeout : ℚ) (m : Metrics) (k : Key) (hk : targetKey t = some k)
    (hf : probeFails env t timeout = true) :
    (run_probe env t timeout m).2.1.thresh = m.thresh := by
  obtain ⟨hm, -⟩ := run_probe_fail_eq env t timeout m k hk hf
  rw [hm, Metrics.setUp_thresh, Metrics.incErrors_thresh]

/-- Witness for the C9 theorem: a refused TCP probe of `tcp://db:5432`
leaves the threshold map the initial one. -/
theorem failure_preserves_threshold_wit :
    targetKey ⟨"tcp://db:5432", none, none⟩ =
      some ("tcp://db:5432", "tcp", "db:5432") ∧
    probeFails env0 ⟨"tcp://db:5432", none, none⟩ 5 = true ∧
    (run_probe env0 ⟨"tcp://db:5432", none, none⟩ 5
      Metrics.init).2.1.thresh = Metrics.init.thresh :=
  ⟨by decide, by decide,
    failure_preserves_threshold env0 ⟨"tcp://db:5432", none, none⟩ 5
      Metrics.init ("tcp://db:5432", "tcp", "db:5432")
      (by decide) (by decide)⟩

/-- Claim C5 (confirmed): a probe success sets the latency gauge of the
target's key to the measured value — which is nonnegative because
`perf_counter` is monotonic — sets the threshold gauge to the target's
configured threshold (default 1.0 when unspecified), sets the up-state
to 1, and leaves the whole error-counter map unchanged. -/
theorem success_sets_metrics (env : NetEnv) (t : Target) (timeout : ℚ)
    (m : Metrics) (k : Key) (hk : targetKey t = some k)
    (hs : probeSucceeds env t timeout = true)
    (hmono : env.ClockMono) :
    (run_probe env t timeout m).2.1.latency k =
      some (probeLatency env t timeout) ∧
    0 ≤ probeLatency env t timeout ∧
    (run_probe env t timeout m).2.1.thresh k =
      some (t.threshold_seconds.getD 1) ∧
    (run_probe env t timeout m).2.1.up k = some 1 ∧
    (run_probe env t timeout m).2.1.errors = m.errors := by
  obtain ⟨hm, -⟩ := run_probe_success_eq env t timeout m k hk hs
  rw [hm]
  refine ⟨?_, probeLatency_nonneg env t timeout hmono, ?_, ?_, ?_⟩
  · rw [Metrics.setUp_latency, Metrics.setThresh_latency,
      Metrics.setLatency_latency_self]
  · rw [Metrics.setUp_thresh, Metrics.setThresh_thresh_self]
  · rw [Metrics.setUp_up_self]
  · rw [Metrics.setUp_errors, Metrics.setThresh_errors,
      Metrics.setLatency_errors]

/-- Witness for the C5 theorem: a successful HTTPS probe of
`https://svc` in the all-succeeding environment. -/
theorem success_sets_metrics_wit :
    targetKey ⟨"https://svc", none, some 2⟩ =
      some ("https://svc", "http", "https://svc") ∧
    probeSucceeds envUp ⟨"https://svc", none, some 2⟩ 5 = true ∧
    (run_probe envUp ⟨"https://svc", none, some 2⟩ 5 Metrics.init).2.1.up
      ("https://svc", "http", "https://svc") = some 1 ∧
    (run_probe envUp ⟨"https://svc", none, some 2⟩ 5
      Metrics.init).2.1.latency ("https://svc", "http", "https://svc") =
      some (probeLatency envUp ⟨"https://svc", none, some 2⟩ 5) ∧
    0 ≤ probeLatency envUp ⟨"https://svc", none, some 2⟩ 5 :=
  have hmono : envUp.ClockMono :=
    ⟨fun u t2 => by norm_num [envUp], fun h p t2 => by norm_num [envUp]⟩
  ⟨by decide, by decide,
    (success_sets_metrics envUp ⟨"https://svc", none, some 2⟩ 5
      Metrics.init ("https://svc", "http", "https://svc")
      (by decide) (by decide) hmono).2.2.2.1,
    (success_sets_metrics envUp ⟨"https://svc", none, some 2⟩ 5
      Metrics.init ("https://svc", "http", "https://svc")
      (by decide) (by decide) hmono).1,
    (success_sets_metrics envUp ⟨"https://svc", none, some 2⟩ 5
      Metrics.init ("https://svc", "http", "https://svc")
      (by decide) (by decide) hmono).2.1⟩

/-! ### Claims C7, C3, C6, C8, C10: classification order and scheduler -/

/-- Claim C7 (confirmed): URL classification order. A URL whose
stripped form starts with `http://` or `https://` is dispatched to the
HTTP probe (exactly one `httpGet` in the trace) and recorded under the
key (name, "http", full URL). A URL starting with `tcp://` can start
with neither `http://` nor `https://` — so the http(s)-first check
order cannot misroute it — and, when its port parses, it is dispatched
to the TCP probe and recorded under (name, "tcp", host:port). -/
theorem url_classification (env : NetEnv) (t : Target) (timeout : ℚ)
    (m : Metrics) :
    ((startswith (pyStrip t.url) "http://" ||
      startswith (pyStrip t.url) "https://") = true →
      (run_probe env t timeout m).2.2 =
        [NetOp.httpGet (pyStrip t.url) timeout] ∧
      targetKey t =
        some (t.name.getD (pyStrip t.url), "http", pyStrip t.url) ∧
      ((run_probe env t timeout m).2.1.up
          (t.name.getD (pyStrip t.url), "http", pyStrip t.url) = some 1 ∨
        (run_probe env t timeout m).2.1.up
          (t.name.getD (pyStrip t.url), "http", pyStrip t.url) = some 0)) ∧
    (startswith (pyStrip t.url) "tcp://" = true →
      (startswith (pyStrip t.url) "http://" = false ∧
        startswith (pyStrip t.url) "https://" = false) ∧
      ∀ p : ℤ, pyInt (String.mk
          (splitColon ((pyStrip t.url).toList.drop 6)).2) = some p →
        (run_probe env t timeout m).2.2 =
          [NetOp.tcpConnect
            (String.mk (splitColon ((pyStrip t.url).toList.drop 6)).1)
            p timeout] ∧
        targetKey t = some (t.name.getD (pyStrip t.url), "tcp",
          String.mk (splitColon ((pyStrip t.url).toList.drop 6)).1 ++
            ":" ++ toString p) ∧
        ((run_probe env t timeout m).2.1.up
            (t.name.getD (pyStrip t.url), "tcp",
              String.mk (splitColon ((pyStrip t.url).toList.drop 6)).1 ++
                ":" ++ toString p) = some 1 ∨
          (run_probe env t timeout m).2.1.up
            (t.name.getD (pyStrip t.url), "tcp",
              String.mk (splitColon ((pyStrip t.url).toList.drop 6)).1 ++
                ":" ++ toString p) = some 0)) := by
  constructor
  · intro h
    have hc := classify_of_http t h
    rw [run_probe_eq, hc]
    refine ⟨?_, ?_, ?_⟩
    · cases hg : env.httpGet (pyStrip t.url) timeout <;>
        simp [dispatchRun, probe_http, hg]
    · simp only [targetKey, hc, Dispatch.key]
    · cases hg : env.httpGet (pyStrip t.url) timeout with
      | ok v =>
        left
        simp [dispatchRun, probe_http, hg, Metrics.setUp_up_self]
      | error e =>
        right
        simp [dispatchRun, probe_http, hg, Metrics.setUp_up_self]
  · intro h2
    refine ⟨startswith_tcp_not_http _ h2, fun p hport => ?_⟩
    have hc := classify_of_tcp t p h2 hport
    rw [run_probe_eq, hc]
    refine ⟨?_, ?_, ?_⟩
    · cases hg : env.tcpConnect
          (String.mk (splitColon ((pyStrip t.url).data.drop 6)).1) p
          timeout <;>
        simp [dispatchRun, probe_tcp, hg]
    · simp only [targetKey, hc, Dispatch.key]
    · cases hg : env.tcpConnect
          (String.mk (splitColon ((pyStrip t.url).data.drop 6)).1) p
          timeout with
      | ok v =>
        left
        simp [dispatchRun, probe_tcp, hg, Metrics.setUp_up_self]
      | error e =>
        right
        simp [dispatchRun, probe_tcp, hg, Metrics.setUp_up_self]

/-- Witness for the C7 theorem: an HTTP target and a TCP target
dispatched to their probes with the stated labels. -/
theorem url_classification_wit :
    (run_probe env0 ⟨"http://svc2", none, none⟩ 5 Metrics.init).2.2 =
      [NetOp.httpGet (pyStrip "http://svc2") 5] ∧
    (run_probe env0 ⟨"tcp://db2:7", none, none⟩ 5 Metrics.init).2.2 =
      [NetOp.tcpConnect
        (String.mk (splitColon ((pyStrip "tcp://db2:7").toList.drop 6)).1)
        7 5] :=
  ⟨((url_classification env0 ⟨"http://svc2", none, none⟩ 5
      Metrics.init).1 (by decide)).1,
    (((url_classification env0 ⟨"tcp://db2:7", none, none⟩ 5
      Metrics.init).2 (by decide)).2 7 (by decide)).1⟩

/-- Claim C3 (confirmed): when the config reload fails, the scheduler
state used by the tick is exactly the previous state — targets,
interval and timeout all unchanged — and in general a tick's state is
either the old state or the fully loaded triple: a reload never
partially replaces the three fields. -/
theorem reload_failure_keeps_state (src : ConfigSrc) (env : NetEnv)
    (st : SchedState) (m : Metrics) :
    (load_config src st = .error () →
      (schedulerTick src env st m).1 = st) ∧
    ((schedulerTick src env st m).1 = st ∨
      ∃ tr iv tm, load_config src st = .ok (tr, iv, tm) ∧
        (schedulerTick src env st m).1 = ⟨tr, iv, tm⟩) := by
  constructor
  · intro h
    simp only [schedulerTick, h]
    split <;> rfl
  · cases hl : load_config src st with
    | ok v =>
      obtain ⟨tr, iv, tm⟩ := v
      right
      refine ⟨tr, iv, tm, rfl, ?_⟩
      simp only [schedulerTick, hl]
      split <;> rfl
    | error e =>
      left
      cases e
      simp only [schedulerTick, hl]
      split <;> rfl

/-- Witness for the C3 theorem: an unreadable config source and a
one-target state. -/
theorem reload_failure_keeps_state_wit :
    load_config .err ⟨[⟨"http://a", none, none⟩], 15, 5⟩ = .error () ∧
    (schedulerTick .err env0 ⟨[⟨"http://a", none, none⟩], 15, 5⟩
      Metrics.init).1 = ⟨[⟨"http://a", none, none⟩], 15, 5⟩ :=
  ⟨rfl, (reload_failure_keeps_state .err env0
    ⟨[⟨"http://a", none, none⟩], 15, 5⟩ Metrics.init).1 rfl⟩

/-- Claim C6 (confirmed): errors never terminate the scheduler loop.
A probe whose coroutine raises contributes nothing and is simply
skipped — the batch's registry effects and I/O trace are those of the
remaining probes, so sibling results are neither aborted nor lost; a
failed reload is absorbed, the tick keeps the old state and still runs
the batch with the stale config; and the loop always takes its next
tick, whatever each tick's config source and network do. -/
theorem probe_exception_isolated :
    (∀ (env : NetEnv) (timeout : ℚ) (pre post : List Target) (t : Target)
      (m : Metrics), probeRaises t = true →
      runBatch env (pre ++ t :: post) timeout m =
        runBatch env (pre ++ post) timeout m) ∧
    (∀ (src : ConfigSrc) (env : NetEnv) (st : SchedState) (m : Metrics),
      load_config src st = .error () →
      (schedulerTick src env st m).1 = st ∧
      (schedulerTick src env st m).2.1 =
        (if st.targets.isEmpty then m
          else (runBatch env st.targets st.timeout m).1)) ∧
    (∀ (srcs : ℕ → ConfigSrc) (envs : ℕ → NetEnv) (st : SchedState)
      (m : Metrics) (n : ℕ),
      schedulerSteps srcs envs st m (n + 1) =
        ((schedulerTick (srcs n) (envs n)
            (schedulerSteps srcs envs st m n).1
            (schedulerSteps srcs envs st m n).2).1,
          (schedulerTick (srcs n) (envs n)
            (schedulerSteps srcs envs st m n).1
            (schedulerSteps srcs envs st m n).2).2.1)) := by
  refine ⟨fun env timeout pre post t m h =>
    runBatch_raise_skip env timeout pre post t m h, ?_, ?_⟩
  · intro src env st m h
    by_cases he : st.targets.isEmpty <;>
      simp [schedulerTick, h, he]
  · intro srcs envs st m n
    rfl

/-- Witness for the C6 theorem: a raising `ftp://` target dropped from
a two-target batch, and an absorbed reload failure. -/
theorem probe_exception_isolated_wit :
    probeRaises ⟨"ftp://x2", none, none⟩ = true ∧
    runBatch env0 [⟨"http://a2", none, none⟩, ⟨"ftp://x2", none, none⟩] 5
      Metrics.init =
      runBatch env0 [⟨"http://a2", none, none⟩] 5 Metrics.init ∧
    load_config .err ⟨[], 10, 5⟩ = .error () ∧
    (schedulerTick .err env0 ⟨[], 10, 5⟩ Metrics.init).2.1 =
      Metrics.init :=
  ⟨by decide,
    probe_exception_isolated.1 env0 5 [⟨"http://a2", none, none⟩] []
      ⟨"ftp://x2", none, none⟩ Metrics.init (by decide),
    rfl,
    (probe_exception_isolated.2.1 .err env0 ⟨[], 10, 5⟩ Metrics.init
      rfl).2⟩

/-- Claim C8 (confirmed): on a tick whose effective target list (after
reload or fallback) is empty, the scheduler dispatches no probes (empty
I/O trace), leaves the registry unchanged, and sleeps for the effective
interval. -/
theorem empty_targets_tick_noop (src : ConfigSrc) (env : NetEnv)
    (st : SchedState) (m : Metrics)
    (h : (effectiveSnapshot src st).targets = []) :
    schedulerTick src env st m =
      (effectiveSnapshot src st, m, [],
        (effectiveSnapshot src st).interval) := by
  unfold effectiveSnapshot at h ⊢
  cases hl : load_config src st with
  | ok v =>
    obtain ⟨tr, iv, tm⟩ := v
    rw [hl] at h
    dsimp only at h
    subst h
    simp [schedulerTick, hl]
  | error e =>
    rw [hl] at h
    dsimp only at h
    simp [schedulerTick, hl, h]

/-- Witness for the C8 theorem: an empty parsed document empties the
target list; the tick is a no-op on the registry. -/
theorem empty_targets_tick_noop_wit :
    (effectiveSnapshot (.parsed none)
      ⟨[⟨"http://a", none, none⟩], 10, 5⟩).targets = ([] : List Target) ∧
    schedulerTick (.parsed none) env0 ⟨[⟨"http://a", none, none⟩], 10, 5⟩
      Metrics.init = (⟨[], 10, 5⟩, Metrics.init, [], 10) :=
  ⟨rfl, empty_targets_tick_noop (.parsed none) env0
    ⟨[⟨"http://a", none, none⟩], 10, 5⟩ Metrics.init rfl⟩

/-- Claim C10 (confirmed): a readable config source that parses to an
empty or null document is a successful reload: the target list becomes
empty while interval and timeout fall back to the previously active
values; a document missing both numeric fields also reloads
successfully with the previous values; and the tick after an
empty-document reload installs the new empty snapshot without touching
the registry. -/
theorem empty_doc_reload_succeeds (st : SchedState) :
    load_config (.parsed none) st = .ok ([], st.interval, st.timeout) ∧
    (∀ tr, load_config (.parsed (some ⟨tr, none, none⟩)) st =
      .ok (tr, st.interval, st.timeout)) ∧
    ∀ (env : NetEnv) (m : Metrics),
      (schedulerTick (.parsed none) env st m).1 =
        ⟨[], st.interval, st.timeout⟩ ∧
      (schedulerTick (.parsed none) env st m).2.1 = m :=
  ⟨rfl, fun _ => rfl, fun _ _ => ⟨rfl, rfl⟩⟩

end Pinger
